import Mathlib

/-!
Verification of the MindSQL core against its natural-language specification.

Shallow embedding conventions:
- Python strings are modelled as Lean String or List Char; negative indices,
  slicing and str.find follow CPython semantics.
- Python dicts are modelled as insertion-ordered association lists with
  overwrite-in-place assignment.
- Exceptions are modelled with Except or an explicit Option error component.
- External collaborators (embedder, LLM, database, chart executor) are
  parameters of the embedded functions; the FAISS flat L2 index is modelled
  by its documented exact k-nearest-neighbour contract.

The file is organised as all definitions first, then all theorems.
-/

namespace MindSQL

/-! # Definitions -/

/-! ## Python string primitives -/

/-- Model of CPython substring search from the start: returns the first index
at which the needle occurs, as an Option. -/
def pyFindAux (needle : List Char) : List Char → Option Nat
  | [] => if needle.isEmpty then some 0 else none
  | c :: rest =>
      if needle.isPrefixOf (c :: rest) then some 0
      else (pyFindAux needle rest).map (· + 1)

/-- Model of CPython str.find: first occurrence index, or -1 when absent. -/
def pyFind (hay needle : List Char) : Int :=
  match pyFindAux needle hay with
  | some n => (n : Int)
  | none => -1

/-- Model of CPython slicing s[a:b] with step 1: negative indices count from
the end, then both bounds are clamped into [0, len(s)]. -/
def pySlice (s : List Char) (a b : Int) : List Char :=
  let n : Int := s.length
  let a' : Int := if a < 0 then a + n else a
  let b' : Int := if b < 0 then b + n else b
  let lo : Nat := (min (max a' 0) n).toNat
  let hi : Nat := (min (max b' 0) n).toNat
  (s.drop lo).take (hi - lo)

/-- Model of CPython str.startswith. -/
def pyStartswith (s p : String) : Bool :=
  p.toList.isPrefixOf s.toList

/-! ## helper.py: has_select_and_semicolon and extract_sql
(src/mindsql/_helper/helper.py, lines 25-72) -/

/-- Embedding of has_select_and_semicolon: the LLM response must contain a
case-insensitive SELECT occurring before a literal semicolon. The source
computes llm_response.upper().find("SELECT") and llm_response.find(";"). -/
def has_select_and_semicolon (llm_response : List Char) : Bool :=
  let index_select := pyFind (llm_response.map Char.toUpper) ("SELECT".toList)
  let index_semicolon := pyFind llm_response (";".toList)
  index_select != -1 && index_semicolon != -1 && decide (index_select < index_semicolon)

/-- Fence header match for the regex used by extract_sql. At the current
position the pattern is three backticks, an optional literal sql tag, then a
newline; the greedy optional group tries the sql variant first. Returns the
header length when it matches. -/
def fenceHeaderLen (s : List Char) : Option Nat :=
  if ("\x60\x60\x60sql\n".toList).isPrefixOf s then some 7
  else if ("\x60\x60\x60\n".toList).isPrefixOf s then some 4
  else none

/-- Attempt of the fenced-block regex at one starting position: header, then a
lazily matched body of at least one character, then three closing backticks.
Returns the body (regex group 2) on success. -/
def fenceMatchAt (s : List Char) : Option (List Char) :=
  match fenceHeaderLen s with
  | none => none
  | some h =>
      match s.drop h with
      | [] => none
      | c :: rest =>
          match pyFindAux ("\x60\x60\x60".toList) rest with
          | none => none
          | some j => some (c :: rest.take j)

/-- Model of re.search for the fenced-block pattern with DOTALL: the leftmost
starting position with a successful match wins. -/
def fenceSearch : List Char → Option (List Char)
  | [] => none
  | c :: rest =>
      match fenceMatchAt (c :: rest) with
      | some body => some body
      | none => fenceSearch rest

/-- Embedding of extract_sql (src/mindsql/_helper/helper.py lines 41-72):
a fenced code block wins and its interior is returned with backticks removed;
otherwise, when has_select_and_semicolon holds, the source slices
llm_response[llm_response.find("SELECT") : llm_response.find(";") + 1] with a
case-SENSITIVE find, and strips backticks; otherwise the input is returned
unchanged. The logging wrapper has no effect on the value and is omitted. -/
def extract_sql (llm_response : List Char) : List Char :=
  match fenceSearch llm_response with
  | some body => body.filter (fun ch => ch != '\x60')
  | none =>
      if has_select_and_semicolon llm_response then
        let start_sql := pyFind llm_response ("SELECT".toList)
        let end_sql := pyFind llm_response (";".toList)
        (pySlice llm_response start_sql (end_sql + 1)).filter (fun ch => ch != '\x60')
      else llm_response

/-! ## mindsql_core.py: ask_db (lines 462-500)

The orchestrator is embedded with its external collaborators as parameters:
generate stands for create_database_query (retrieval, prompt building, the
text-generation invoke and extract_sql, any of which may raise and whose
value on success is the extracted SQL candidate), validate for
helper.validate_sql, execute for execute_sql, summarize for the second invoke
on FINAL_RESPONSE_PROMPT, and chart_of for visualize (which is total, proved
below). The source builds the dict literal passed to result.update by
evaluating the df value, then the summarization invoke, then visualize,
BEFORE update runs, so a summarization failure leaves sql_result unset. -/

/-- Result dictionary of ask_db: each key independently present or absent. -/
structure AskResult (E Df Chart : Type) where
  sql : Option String := none
  sql_result : Option Df := none
  response : Option String := none
  chart : Option Chart := none
  error : Option E := none
deriving DecidableEq

/-- Embedding of MindSQLCore.ask_db (src/mindsql/core/mindsql_core.py lines
462-500). Control flow: on generation failure the outer handler records the
exception; on success sql is recorded, then validation gates execution; the
three keys sql_result, response and chart are written by a single
result.update call whose dict literal is fully evaluated first. -/
def ask_db {E D C : Type} (generate : Except E String) (validate : String → Bool)
    (execute : String → Except E D) (summarize : D → Except E String)
    (chart_of : D → Option C) : AskResult E D C :=
  match generate with
  | .error e => { error := some e }
  | .ok sql =>
      if validate sql then
        match execute sql with
        | .error e => { sql := some sql, error := some e }
        | .ok df =>
            match summarize df with
            | .error e => { sql := some sql, error := some e }
            | .ok resp =>
                { sql := some sql, sql_result := some df, response := some resp,
                  chart := chart_of df }
      else { sql := some sql }

/-! ## mindsql_core.py: visualize (lines 585-620) -/

/-- Minimal pandas DataFrame model: named columns and row-major values. -/
structure DataFrame where
  columns : List String
  rows : List (List String)
deriving DecidableEq

/-- Model of the pandas DataFrame.empty property: true when any axis has
length zero. -/
def pdEmpty (d : DataFrame) : Bool :=
  d.rows.isEmpty || d.columns.isEmpty

/-- Embedding of MindSQLCore.visualize (src/mindsql/core/mindsql_core.py
lines 585-620). Parameters model the collaborators: invoke_result is the
value the text-generation invoke would produce when reached, extract_code is
the total __extract_plotly_code helper, execute_code models
__execute_plotly_code (exec of the generated code, which may raise, and
returns the value bound under the chart variable if any). The returned Bool
records whether the text-generation invoke was reached. The inner display
block is omitted: it is wrapped in its own except handler that only logs, so
it can change neither the return value nor the raising behaviour. When the
enabling guard fails the source falls off the end and returns None. -/
def visualize {E C : Type} (data : DataFrame) (viz_flag : Bool)
    (invoke_result : Except E String) (extract_code : String → String)
    (execute_code : String → Except E (Option C)) : Option C × Bool :=
  if viz_flag && !(pdEmpty data) then
    if data.columns.length == 1 then (none, false)
    else
      match invoke_result with
      | .error _ => (none, true)
      | .ok result =>
          match execute_code (extract_code result) with
          | .error _ => (none, true)
          | .ok fig => (fig, true)
  else (none, false)

/-! ## mindsql_core.py: index (lines 502-544) -/

/-- Entry of the bulk-load JSON array: each field is present when the object
carries the corresponding key (the source checks key presence only). -/
structure BulkItem where
  question : Option String
  sqlQuery : Option String
deriving DecidableEq

/-- Vector-store mutations the umbrella index method can perform. -/
inductive Mutation
  | insertQuestionSql (question sql : String)
  | insertDocumentation (documentation : String)
  | insertDdl (ddl : String)
deriving DecidableEq

/-- Exceptions raised by the umbrella index method: the generic Exception for
an empty bulk file, and the two ValueError cases. -/
inductive PyError
  | noDataFound
  | bulkFalseError
  | sqlNotProvided
deriving DecidableEq

/-- Python truthiness of an optional string argument (None and the empty
string are falsy). -/
def truthy : Option String → Bool
  | none => false
  | some s => !s.isEmpty

/-- Embedding of MindSQLCore.index (src/mindsql/core/mindsql_core.py lines
502-544). file_data models the value load_json_to_dict(path) returns in the
bulk branch; the empty list covers both an unreadable file (the helper
swallows the exception and returns an empty dict, falsy) and an empty array.
Result: the list of vector-store mutations performed, in order, and the
exception raised if any; mutations performed before a raise are kept. The
confirmation message or chunk id the source returns carries no information
the claims need and is omitted. -/
def index (question sql ddl documentation : Option String) (bulk : Bool)
    (path : Option String) (file_data : List BulkItem) :
    List Mutation × Option PyError :=
  let bulkStep : List Mutation × Option PyError :=
    if bulk && truthy path then
      if file_data.isEmpty then ([], some .noDataFound)
      else (file_data.filterMap (fun it =>
              match it.question, it.sqlQuery with
              | some q, some s => some (.insertQuestionSql q s)
              | _, _ => none), none)
    else ([], none)
  -- the remaining checks run in source order after the bulk branch
  match bulkStep with
  | (m, some e) => (m, some e)
  | (m, none) =>
      if truthy path && !bulk then (m, some .bulkFalseError)
      else if truthy question && !(truthy sql) then (m, some .sqlNotProvided)
      else if truthy question && truthy sql then
        (m ++ [.insertQuestionSql (question.getD "") (sql.getD "")], none)
      else if truthy documentation then
        (m ++ [.insertDocumentation (documentation.getD "")], none)
      else if truthy ddl then
        (m ++ [.insertDdl (ddl.getD "")], none)
      else (m, none)

/-- Bulk entries the source actually inserts: those carrying both keys. -/
def validBulkMutations (file_data : List BulkItem) : List Mutation :=
  file_data.filterMap (fun it =>
    match it.question, it.sqlQuery with
    | some q, some s => some (.insertQuestionSql q s)
    | _, _ => none)

/-! ## faiss_db.py: the self-managed vector store
(src/mindsql/vectorstores/faiss_db.py)

The embedder is external: every insert and query takes the encoded vector
as a parameter. uuid.uuid4() is nondeterministic: the fresh uuid string is a
parameter of every insert. The FAISS IndexFlatL2 object is modelled by its
documented contract: a flat array of vectors with sequential ids equal to
array positions; add appends, remove_ids removes the given position and
shifts the tail down, and search returns the k nearest stored vectors by
squared Euclidean distance in non-decreasing order, padding missing slots
with id -1 when fewer than k vectors are stored. -/

/-- Dense vectors with integer coordinates. -/
abbrev Vec := List Int

/-- Squared Euclidean distance, the IndexFlatL2 metric (vectors of equal
dimension). -/
def sqDist (u v : Vec) : Int :=
  ((u.zip v).map (fun p => (p.1 - p.2) * (p.1 - p.2))).sum

/-- Python dict assignment d[k] = v on an insertion-ordered association
list: overwrite in place when the key exists, else append. -/
def dictSet (d : List (String × Nat)) (k : String) (v : Nat) : List (String × Nat) :=
  if d.any (fun p => p.1 == k) then
    d.map (fun p => if p.1 == k then (k, v) else p)
  else d ++ [(k, v)]

/-- Python dict lookup d.get(k) as an Option (d[k] raises KeyError on none). -/
def dictGet (d : List (String × Nat)) (k : String) : Option Nat :=
  (d.find? (fun p => p.1 == k)).map (·.2)

/-- One FAISS-backed collection: the flat vector index, the parallel list of
stored chunk texts (the source confusingly names it chunk_ids although it
holds the payload texts), and the id-to-offset dict index_mapping. -/
structure FaissCollection where
  index : List Vec
  chunk_ids : List String
  index_mapping : List (String × Nat)
deriving DecidableEq

/-- Fresh collection as produced by _initialize_index. -/
def emptyCollection : FaissCollection :=
  { index := [], chunk_ids := [], index_mapping := [] }

/-- The Faiss store state: three collections plus the ddl side table. -/
structure Faiss where
  sql : FaissCollection
  ddl : FaissCollection
  documentation : FaissCollection
  ddl_metadata : List (String × Option String)
deriving DecidableEq

/-- Freshly constructed Faiss store. -/
def emptyFaiss : Faiss :=
  { sql := emptyCollection, ddl := emptyCollection,
    documentation := emptyCollection, ddl_metadata := [] }

/-- Serialization json.dumps of the Question/SQLQuery pair stored by
index_question_sql; JSON string escaping is elided (the claims use
escape-free payloads). -/
def questionSqlJson (question sql : String) : String :=
  "\x7b\"Question\": \"" ++ question ++ "\", \"SQLQuery\": \"" ++ sql ++ "\"\x7d"

/-- Shared insert step: append the vector to the index, append the text to
the chunk list, then map the chunk id to len(chunk_ids) - 1. -/
def indexInto (c : FaissCollection) (chunk_id text : String) (vec : Vec) :
    FaissCollection :=
  { index := c.index ++ [vec],
    chunk_ids := c.chunk_ids ++ [text],
    index_mapping := dictSet c.index_mapping chunk_id c.chunk_ids.length }

/-- Embedding of Faiss.index_question_sql (lines 68-88): serializes the pair,
forms the id uuid + "-sql", appends vector and text and maps the id to the
new tail offset; returns the new state and the chunk id. -/
def index_question_sql (st : Faiss) (uuid question sql : String) (vec : Vec) :
    Faiss × String :=
  let chunk_id := uuid ++ "-sql"
  ({ st with sql := indexInto st.sql chunk_id (questionSqlJson question sql) vec },
    chunk_id)

/-- Embedding of Faiss.index_ddl (lines 90-110): id uuid + "-ddl", appends,
and records the table name in ddl_metadata (table is the optional kwarg). -/
def index_ddl (st : Faiss) (uuid ddl : String) (table : Option String) (vec : Vec) :
    Faiss × String :=
  let chunk_id := uuid ++ "-ddl"
  ({ st with
      ddl := indexInto st.ddl chunk_id ddl vec,
      ddl_metadata :=
        if st.ddl_metadata.any (fun p => p.1 == chunk_id) then
          st.ddl_metadata.map (fun p => if p.1 == chunk_id then (chunk_id, table) else p)
        else st.ddl_metadata ++ [(chunk_id, table)] },
    chunk_id)

/-- Embedding of Faiss.index_documentation (lines 112-130): id uuid + "-doc",
appends vector and text. -/
def index_documentation (st : Faiss) (uuid documentation : String) (vec : Vec) :
    Faiss × String :=
  let chunk_id := uuid ++ "-doc"
  ({ st with documentation := indexInto st.documentation chunk_id documentation vec },
    chunk_id)

/-- Per-collection body of Faiss.delete_vectorstore_data (lines 188-197):
index_mapping[item_id] raises KeyError when absent (modelled as error);
otherwise the vector at that offset is removed from the flat index, the text
entry at that offset is deleted, and the source then runs
  for i, chunk_id in enumerate(chunk_ids): index_mapping[chunk_id] = i
which iterates over the remaining chunk TEXTS (chunk_ids holds payloads), so
it assigns offsets keyed by text and never touches the real id keys. -/
def deleteFromCollection (c : FaissCollection) (item_id : String) :
    Except Unit FaissCollection :=
  match dictGet c.index_mapping item_id with
  | none => .error ()
  | some doc_index =>
      let index' := c.index.eraseIdx doc_index
      let chunks' := c.chunk_ids.eraseIdx doc_index
      let mapping' := (chunks'.enum).foldl (fun m p => dictSet m p.2 p.1) c.index_mapping
      .ok { index := index', chunk_ids := chunks', index_mapping := mapping' }

/-- Embedding of Faiss.delete_vectorstore_data (lines 162-197): dispatches on
item_id.startswith("sql" / "ddl" / "doc") - a PREFIX test although the ids
issued by the index operations carry the collection tag as a SUFFIX - and
returns False without touching anything when no prefix matches. -/
def delete_vectorstore_data (st : Faiss) (item_id : String) :
    Except Unit (Faiss × Bool) :=
  if pyStartswith item_id "sql" then
    (deleteFromCollection st.sql item_id).map (fun c => ({ st with sql := c }, true))
  else if pyStartswith item_id "ddl" then
    (deleteFromCollection st.ddl item_id).map (fun c => ({ st with ddl := c }, true))
  else if pyStartswith item_id "doc" then
    (deleteFromCollection st.documentation item_id).map
      (fun c => ({ st with documentation := c }, true))
  else .ok (st, false)

/-! ## faiss_db.py: retrieval (lines 230-301) -/

/-- Distance key of a stored slot for a query vector. -/
def searchKey (q : Vec) (db : List Vec) (i : Nat) : Int :=
  sqDist q (db.getD i [])

/-- Ranking relation of the flat L2 search: strictly smaller distance first,
ties broken by the stored slot id (FAISS returns some fixed tie order; slot
order makes the model deterministic). -/
def searchRel (q : Vec) (db : List Vec) (i j : Nat) : Prop :=
  searchKey q db i < searchKey q db j
    ∨ (searchKey q db i = searchKey q db j ∧ i ≤ j)

instance (q : Vec) (db : List Vec) : DecidableRel (searchRel q db) := fun i j =>
  decidable_of_iff
    (searchKey q db i < searchKey q db j
      ∨ (searchKey q db i = searchKey q db j ∧ i ≤ j)) Iff.rfl

/-- All stored slot ids ordered by the search ranking. -/
def searchOrder (q : Vec) (db : List Vec) : List Nat :=
  List.insertionSort (searchRel q db) (List.range db.length)

/-- Documented contract of IndexFlatL2.search for one query: the ids of the
k nearest stored vectors in non-decreasing distance order, padded with -1
when fewer than k vectors are stored. -/
def faissSearch (q : Vec) (db : List Vec) (k : Nat) : List Int :=
  let ord := (searchOrder q db).take k
  ord.map Int.ofNat ++ List.replicate (k - ord.length) (-1)

/-- Shared body of the three retrieve_relevant_* methods (lines 230-301):
search, return [] when every returned id is -1 (numpy all over an empty row
is also true, covering k = 0), else collect the chunk text at each non-(-1)
id. The source indexes chunk_ids[idx] directly; the model uses the optional
lookup, shown in-bounds below. -/
def faissRetrieve (chunks : List String) (db : List Vec) (q : Vec) (k : Nat) :
    List String :=
  let indices := faissSearch q db k
  if indices.all (fun i => i == -1) then []
  else indices.filterMap (fun i =>
    if i != -1 then chunks.get? i.toNat else none)

/-- Embedding of Faiss.retrieve_relevant_question_sql (lines 230-253); the
source additionally parses each returned JSON text with json.loads, a
per-item step that preserves count and order and is elided here. -/
def retrieve_relevant_question_sql (st : Faiss) (qvec : Vec) (k : Nat) :
    List String :=
  faissRetrieve st.sql.chunk_ids st.sql.index qvec k

/-- Embedding of Faiss.retrieve_relevant_ddl (lines 255-277). -/
def retrieve_relevant_ddl (st : Faiss) (qvec : Vec) (k : Nat) : List String :=
  faissRetrieve st.ddl.chunk_ids st.ddl.index qvec k

/-- Embedding of Faiss.retrieve_relevant_documentation (lines 279-301). -/
def retrieve_relevant_documentation (st : Faiss) (qvec : Vec) (k : Nat) :
    List String :=
  faissRetrieve st.documentation.chunk_ids st.documentation.index qvec k

/-- Retrieval contract of claim C4 for one collection: the result is exactly
the chunk texts of the min(k, n) best-ranked slots, so it has length
min(k, n) (empty collections give an empty list), and the corresponding
squared Euclidean distances to the query are pairwise non-decreasing. -/
def retrieveOk (chunks : List String) (db : List Vec) (q : Vec) (k : Nat) : Prop :=
  faissRetrieve chunks db q k
      = ((searchOrder q db).take k).map (fun i => chunks.getD i "")
    ∧ (faissRetrieve chunks db q k).length = min k db.length
    ∧ List.Pairwise (fun a b => a ≤ b)
        (((searchOrder q db).take k).map (searchKey q db))

/-! ## Prompt building (mindsql_core.py lines 331-460, prompts.py)

The prompt constants of src/mindsql/_utils/prompts.py are reproduced with
their format placeholders turned into function arguments; apostrophes and
backticks are written as escapes. build_sql_prompt is parameterized by the
retrieved context lists (the source obtains ddl_statements via
_get_ddl_statements and doc_statements via retrieve_relevant_documentation;
the claim quantifies over every combination of retrieved lists). -/

/-- DEFAULT_PROMPT of prompts.py with dialect_name substituted. -/
def DEFAULT_PROMPT (dialect_name : String) : String :=
  "As a " ++ dialect_name ++ " expert, your task is to generate SQL queries based on user questions. Ensure that your "
    ++ dialect_name
    ++ " queries are syntactically correct and tailored to the user\x27s inquiry. Retrieve at most 10 results using the LIMIT clause and order them for relevance. Avoid querying for all columns from a table. Select only the necessary columns wrapped in backticks (\x60). Use CURDATE() to handle \x27today\x27 queries and employ the LIKE clause for precise matches in "
    ++ dialect_name
    ++ ". Carefully consider column names and their respective tables to avoid querying non-existent columns. Stop after delivering the SQLQuery, avoiding follow-up questions.\n\nFollow this format:\nQuestion: User\x27s question here\nSQLQuery: Your SQL query without preamble\n\nNo preamble\n\n\n"

/-- DDL_PROMPT of prompts.py with its placeholder substituted. -/
def DDL_PROMPT (ddl_statements : String) : String :=
  "Only use the following tables:\n" ++ ddl_statements ++ "\n\n"

/-- FEW_SHOT_EXAMPLE of prompts.py with its placeholder substituted. -/
def FEW_SHOT_EXAMPLE (examples : String) : String :=
  "Make use of the following Example \x27SQLQuery\x27 for generating SQL query:\n"
    ++ examples ++ "\n\n"

/-- Embedding of MindSQLCore.__format_qsn_sql (lines 424-440): starts from a
blank-line separator and appends one Question/SQLQuery block per retrieved
example pair. -/
def format_qsn_sql (question_sql_list : List (String × String)) : String :=
  question_sql_list.foldl
    (fun acc p =>
      acc ++ "\x27Question\x27: \"" ++ p.1 ++ "\"\n\x27SQLQuery\x27: \x27"
        ++ p.2 ++ "\x27\n\n")
    "\n\n"

/-- Embedding of MindSQLCore._create_initial_prompt (lines 409-422): the
instruction template, a newline, then the few-shot block - emitted
UNCONDITIONALLY, even for an empty example list. -/
def create_initial_prompt (question_sql_list : List (String × String))
    (dialect_name : String) : String :=
  DEFAULT_PROMPT dialect_name ++ "\n" ++ FEW_SHOT_EXAMPLE (format_qsn_sql question_sql_list)

/-- Embedding of MindSQLCore.stuff_ddl_in_prompt (lines 331-347): the DDL
section is appended only for a non-empty list. -/
def stuff_ddl_in_prompt (initial_prompt : String) (ddl_list : List String) : String :=
  if ddl_list.isEmpty then initial_prompt
  else initial_prompt ++ "\n" ++ DDL_PROMPT (String.intercalate "\n" ddl_list)

/-- Embedding of MindSQLCore.stuff_documentation_in_prompt (lines 349-365):
the documentation text is appended only for a non-empty list (there is no
header for this section). -/
def stuff_documentation_in_prompt (initial_prompt : String)
    (documentation_list : List String) : String :=
  if documentation_list.isEmpty then initial_prompt
  else initial_prompt ++ "\n" ++ String.intercalate "\n" documentation_list

/-- Embedding of MindSQLCore.build_sql_prompt (lines 384-407). -/
def build_sql_prompt (dialect_name question : String)
    (question_sql_list : List (String × String))
    (ddl_statements doc_statements : List String) : String :=
  let initial0 := create_initial_prompt question_sql_list dialect_name
  let initial1 := stuff_ddl_in_prompt initial0 ddl_statements
  let initial2 := stuff_documentation_in_prompt initial1 doc_statements
  initial2 ++ "\n\x27Question\x27: " ++ question

/-- Modelled from the spec for comparison (claim C6): the composition the
claim describes, with EVERY context section - few-shot included - omitted
entirely when its source list is empty. -/
def build_sql_prompt_spec (dialect_name question : String)
    (question_sql_list : List (String × String))
    (ddl_statements doc_statements : List String) : String :=
  DEFAULT_PROMPT dialect_name
    ++ (if question_sql_list.isEmpty then ""
        else "\n" ++ FEW_SHOT_EXAMPLE (format_qsn_sql question_sql_list))
    ++ (if ddl_statements.isEmpty then ""
        else "\n" ++ DDL_PROMPT (String.intercalate "\n" ddl_statements))
    ++ (if doc_statements.isEmpty then ""
        else "\n" ++ String.intercalate "\n" doc_statements)
    ++ "\n\x27Question\x27: " ++ question

/-- Concrete store used to witness the retrieval contract: two sql chunks,
one documentation chunk, empty ddl collection. -/
def c4Store : Faiss :=
  { sql := { index := [[0], [3]], chunk_ids := ["A", "B"],
             index_mapping := [("u1-sql", 0), ("u2-sql", 1)] },
    ddl := emptyCollection,
    documentation := { index := [[5]], chunk_ids := ["D"],
                       index_mapping := [("u3-doc", 0)] },
    ddl_metadata := [] }

/-- Store state after one index_question_sql call on a fresh store, with a
concrete uuid (uuid4 strings start with a hexadecimal digit, never with the
letters s or d). -/
def c1State : Faiss := (index_question_sql emptyFaiss "3f2b" "q1" "s1" [1]).1

/-- Store state after one index_documentation call on a fresh store. -/
def c2State : Faiss := (index_documentation emptyFaiss "7a9c" "Region docs" [2]).1

/-! # Theorems -/

/-! ## Generic list lemmas used below -/

/-- Helper: a filterMap after a map whose composite is total on the list is
a plain map. -/
theorem filterMap_map_eq_map_of_forall {α β γ : Type} (l : List α) (g : α → β)
    (f : β → Option γ) (h : α → γ) (hfa : ∀ a ∈ l, f (g a) = some (h a)) :
    (l.map g).filterMap f = l.map h := by
  induction l with
  | nil => rfl
  | cons a t ih =>
      rw [List.map_cons, List.filterMap_cons, hfa a (List.mem_cons_self a t),
        List.map_cons, ih (fun b hb => hfa b (List.mem_cons_of_mem a hb))]

/-- Helper: an in-bounds optional lookup returns the default-free value. -/
theorem get?_eq_some_getD (l : List String) (n : Nat) (h : n < l.length) :
    l.get? n = some (l.getD n "") := by
  cases hv : l.get? n with
  | none =>
      have := List.get?_eq_none.mp hv
      omega
  | some v =>
      rw [List.get?_eq_getElem?] at hv
      simp [List.getD, hv]

/-! ## Retrieval lemmas (claim C4) -/

/-- Lemma: the search order is a permutation of all stored slot ids. -/
theorem searchOrder_perm (q : Vec) (db : List Vec) :
    (searchOrder q db).Perm (List.range db.length) :=
  List.perm_insertionSort _ _

/-- Lemma: every slot id in the search order is in bounds. -/
theorem mem_searchOrder_lt (q : Vec) (db : List Vec) {i : Nat}
    (h : i ∈ searchOrder q db) : i < db.length :=
  List.mem_range.mp ((searchOrder_perm q db).mem_iff.mp h)

/-- Lemma: the search order ranks all n stored slots. -/
theorem searchOrder_length (q : Vec) (db : List Vec) :
    (searchOrder q db).length = db.length := by
  simpa using (searchOrder_perm q db).length_eq

/-- Lemma: the search order is sorted by the ranking relation. -/
theorem searchOrder_sorted (q : Vec) (db : List Vec) :
    List.Sorted (searchRel q db) (searchOrder q db) := by
  haveI : IsTotal Nat (searchRel q db) := ⟨fun i j => by
    rcases lt_trichotomy (searchKey q db i) (searchKey q db j) with h | h | h
    · exact Or.inl (Or.inl h)
    · rcases Nat.le_total i j with hij | hij
      · exact Or.inl (Or.inr ⟨h, hij⟩)
      · exact Or.inr (Or.inr ⟨h.symm, hij⟩)
    · exact Or.inr (Or.inl h)⟩
  haveI : IsTrans Nat (searchRel q db) := ⟨fun a b c hab hbc => by
    rcases hab with h1 | ⟨e1, l1⟩ <;> rcases hbc with h2 | ⟨e2, l2⟩
    · exact Or.inl (h1.trans h2)
    · exact Or.inl (e2 ▸ h1)
    · exact Or.inl (e1 ▸ h2)
    · exact Or.inr ⟨e1.trans e2, l1.trans l2⟩⟩
  exact List.sorted_insertionSort _ _

/-- Lemma: the distances of the k best-ranked slots are non-decreasing. -/
theorem searchOrder_take_pairwise (q : Vec) (db : List Vec) (k : Nat) :
    List.Pairwise (fun a b => a ≤ b)
      (((searchOrder q db).take k).map (searchKey q db)) := by
  rw [List.pairwise_map]
  have h1 : List.Pairwise (searchRel q db) ((searchOrder q db).take k) :=
    List.Pairwise.sublist (List.take_sublist k _) (searchOrder_sorted q db)
  refine h1.imp (fun h => ?_)
  rcases h with h | ⟨e, _⟩
  · exact le_of_lt h
  · exact le_of_eq e

/-- Lemma: with the stored texts parallel to the stored vectors, retrieval
returns exactly the texts of the k best-ranked slots; in particular every
direct chunk access in the source loop is in bounds and nothing raises. -/
theorem faissRetrieve_eq (chunks : List String) (db : List Vec) (q : Vec) (k : Nat)
    (hlen : chunks.length = db.length) :
    faissRetrieve chunks db q k
      = ((searchOrder q db).take k).map (fun i => chunks.getD i "") := by
  unfold faissRetrieve faissSearch
  have hmem : ∀ i ∈ (searchOrder q db).take k, i < chunks.length := fun i hi => by
    rw [hlen]
    exact mem_searchOrder_lt q db (List.mem_of_mem_take hi)
  cases hcase : (searchOrder q db).take k with
  | nil =>
      simp [hcase]
  | cons a t =>
      have hne : (Int.ofNat a == (-1 : Int)) = false := by
        rw [beq_eq_false_iff_ne, Int.ofNat_eq_coe]
        omega
      simp only [hcase]
      rw [if_neg]
      · rw [List.filterMap_append]
        have h2 : (List.replicate (k - (a :: t).length) (-1 : Int)).filterMap
            (fun i => if i != -1 then chunks.get? i.toNat else none) = [] := by
          rw [List.filterMap_eq_nil_iff]
          intro x hx
          simp [List.eq_of_mem_replicate hx]
        rw [h2, List.append_nil]
        refine filterMap_map_eq_map_of_forall _ _ _ _ (fun i hi => ?_)
        have hbound : i < chunks.length := hmem i (hcase ▸ hi)
        have hne2 : (Int.ofNat i != (-1 : Int)) = true := by
          rw [bne_iff_ne, Int.ofNat_eq_coe]
          omega
        simp only [hne2, if_true, Int.ofNat_eq_coe, Int.toNat_natCast]
        exact get?_eq_some_getD chunks i hbound
      · simp only [List.all_eq_true, not_forall]
        refine ⟨Int.ofNat a, ?_, by simp [hne]⟩
        exact List.mem_append_left _ (List.mem_map_of_mem _ (List.mem_cons_self _ _))

/-- Lemma: the full retrieval contract of one collection follows from the
parallel-arrays invariant. -/
theorem retrieveOk_of_len (chunks : List String) (db : List Vec) (q : Vec) (k : Nat)
    (hlen : chunks.length = db.length) : retrieveOk chunks db q k := by
  have heq := faissRetrieve_eq chunks db q k hlen
  refine ⟨heq, ?_, searchOrder_take_pairwise q db k⟩
  rw [heq, List.length_map, List.length_take, searchOrder_length]

/-- C4: for every store whose collections keep texts parallel to vectors and
all k, each of the three retrieval operations returns exactly min(k, n)
items for a collection holding n items (an empty collection yields the empty
list and, the embedding being total with all accesses in bounds, nothing
raises), the items are the stored texts of the best-ranked slots, and their
squared Euclidean distances to the query are non-decreasing. -/
theorem retrieval_min_k_sorted (st : Faiss) (qvec : Vec) (k : Nat)
    (h1 : st.sql.chunk_ids.length = st.sql.index.length)
    (h2 : st.ddl.chunk_ids.length = st.ddl.index.length)
    (h3 : st.documentation.chunk_ids.length = st.documentation.index.length) :
    (retrieve_relevant_question_sql st qvec k).length = min k st.sql.index.length
    ∧ (retrieve_relevant_ddl st qvec k).length = min k st.ddl.index.length
    ∧ (retrieve_relevant_documentation st qvec k).length
        = min k st.documentation.index.length
    ∧ retrieveOk st.sql.chunk_ids st.sql.index qvec k
    ∧ retrieveOk st.ddl.chunk_ids st.ddl.index qvec k
    ∧ retrieveOk st.documentation.chunk_ids st.documentation.index qvec k :=
  ⟨(retrieveOk_of_len _ _ _ _ h1).2.1, (retrieveOk_of_len _ _ _ _ h2).2.1,
    (retrieveOk_of_len _ _ _ _ h3).2.1, retrieveOk_of_len _ _ _ _ h1,
    retrieveOk_of_len _ _ _ _ h2, retrieveOk_of_len _ _ _ _ h3⟩

/-- Witness for the C4 theorem on a concrete store with k larger than both
non-empty collection sizes and an empty ddl collection. -/
theorem retrieval_min_k_sorted_witness :
    (c4Store.sql.chunk_ids.length = c4Store.sql.index.length
      ∧ c4Store.ddl.chunk_ids.length = c4Store.ddl.index.length
      ∧ c4Store.documentation.chunk_ids.length = c4Store.documentation.index.length)
    ∧ ((retrieve_relevant_question_sql c4Store [1] 5).length
          = min 5 c4Store.sql.index.length
      ∧ (retrieve_relevant_ddl c4Store [1] 5).length = min 5 c4Store.ddl.index.length
      ∧ (retrieve_relevant_documentation c4Store [1] 5).length
          = min 5 c4Store.documentation.index.length
      ∧ retrieveOk c4Store.sql.chunk_ids c4Store.sql.index [1] 5
      ∧ retrieveOk c4Store.ddl.chunk_ids c4Store.ddl.index [1] 5
      ∧ retrieveOk c4Store.documentation.chunk_ids c4Store.documentation.index [1] 5) :=
  ⟨⟨rfl, rfl, rfl⟩, retrieval_min_k_sorted c4Store [1] 5 rfl rfl rfl⟩

/-! ## Prompt composition (claim C6) -/

set_option maxRecDepth 8192 in
/-- C6 counterexample: with an empty example list (and everything else
empty) the built prompt differs from the spec composition in which every
empty context section is omitted: the few-shot header and its blank
placeholder are emitted anyway. -/
theorem build_sql_prompt_fewshot_cex :
    (build_sql_prompt "Sqlite" "List users" [] [] []
      == build_sql_prompt_spec "Sqlite" "List users" [] [] []) = false := by
  decide

/-- C6 amended: the prompt is the dialect-parameterized instruction
template, then the few-shot section - ALWAYS emitted, with an empty
placeholder when the example list is empty - then the DDL section and the
documentation section, each omitted entirely when its list is empty, then
the literal question. -/
theorem build_sql_prompt_sections_amended (dialect_name question : String)
    (question_sql_list : List (String × String))
    (ddl_statements doc_statements : List String) :
    build_sql_prompt dialect_name question question_sql_list ddl_statements
        doc_statements
      = DEFAULT_PROMPT dialect_name ++ "\n"
        ++ FEW_SHOT_EXAMPLE (format_qsn_sql question_sql_list)
        ++ (if ddl_statements.isEmpty then ""
            else "\n" ++ DDL_PROMPT (String.intercalate "\n" ddl_statements))
        ++ (if doc_statements.isEmpty then ""
            else "\n" ++ String.intercalate "\n" doc_statements)
        ++ "\n\x27Question\x27: " ++ question := by
  unfold build_sql_prompt create_initial_prompt stuff_ddl_in_prompt
    stuff_documentation_in_prompt
  by_cases hd : ddl_statements.isEmpty <;> by_cases hc : doc_statements.isEmpty <;>
    simp [hd, hc, String.append_assoc]

/-! ## Deletion on the self-managed backend (claims C1 and C2) -/

/-- C1: the deletion/offset invariant fails because deletion never happens.
After indexing one question/sql pair the returned id ends in -sql, but
delete_vectorstore_data tests item_id.startswith("sql"): the call returns
False, the state is untouched, the supposedly deleted id keeps its mapping
entry and its content keeps its slot, contradicting the claimed removal of
the deleted id's entry (uuid4 ids begin with a hexadecimal digit, so no
generated id ever starts with sql, ddl or doc). -/
theorem faiss_delete_never_removes :
    (index_question_sql emptyFaiss "3f2b" "q1" "s1" [1]).2 = "3f2b-sql"
    ∧ delete_vectorstore_data c1State "3f2b-sql" = .ok (c1State, false)
    ∧ dictGet c1State.sql.index_mapping "3f2b-sql" = some 0
    ∧ c1State.sql.chunk_ids = [questionSqlJson "q1" "s1"] :=
  ⟨rfl, rfl, rfl, rfl⟩

/-- C2: after delete_vectorstore_data on the id returned by an index call,
the content associated with that id is still returned by retrieval: the
delete dispatches on a prefix although ids carry their collection tag as a
suffix, returns False and removes nothing, so the supposedly deleted
documentation text is still the top retrieval hit. -/
theorem faiss_deleted_content_still_retrieved :
    (index_documentation emptyFaiss "7a9c" "Region docs" [2]).2 = "7a9c-doc"
    ∧ delete_vectorstore_data c2State "7a9c-doc" = .ok (c2State, false)
    ∧ retrieve_relevant_documentation c2State [0] 2 = ["Region docs"] :=
  ⟨rfl, rfl, rfl⟩

/-- Sanity check of the fenced-block path of extract_sql on the spec example. -/
theorem extract_sql_fenced_example :
    extract_sql ("\x60\x60\x60sql\nSELECT * FROM t;\x60\x60\x60".toList)
      = ("SELECT * FROM t;".toList) := by decide

/-- Sanity check of the fallback path of extract_sql on the spec example. -/
theorem extract_sql_fallback_example :
    extract_sql ("Sure! SELECT * FROM t; Thanks".toList)
      = ("SELECT * FROM t;".toList) := by decide

/-- C5: the claim states that a lowercase select-through-semicolon input
yields the same slice as the uppercase form. The code guards with a
case-insensitive check but slices with a case-sensitive find, so on
"select * from t;" the start index is -1, normalised to the last character,
and only ";" is returned: the code contradicts its own case-insensitive
guard, refuting the claimed case-insensitive extraction. -/
theorem extract_sql_lowercase_select_bug :
    extract_sql ("select * from t;".toList) = (";".toList)
    ∧ (extract_sql ("select * from t;".toList) == ("select * from t;".toList)) = false := by
  constructor
  · decide
  · decide

/-- C3 counterexample: database execution succeeded (the execute collaborator
returns ok 0 on the generated SQL) but the summarization invoke raised; the
claim says sql_result is then still present, yet the result records no
sql_result at all, only sql and error. -/
theorem ask_db_sql_result_dropped_cex :
    (fun _ : String => (.ok 0 : Except String Nat)) "SELECT 1;" = .ok 0
    ∧ (ask_db (E := String) (D := Nat) (C := Unit) (.ok "SELECT 1;")
        (fun _ => true) (fun _ => .ok 0) (fun _ => .error "summarize boom")
        (fun _ => none)).sql_result = none
    ∧ (ask_db (E := String) (D := Nat) (C := Unit) (.ok "SELECT 1;")
        (fun _ => true) (fun _ => .ok 0) (fun _ => .error "summarize boom")
        (fun _ => none)).error = some "summarize boom" := by
  refine ⟨rfl, rfl, rfl⟩

/-- C3 amended: when SQL generation succeeded and a later step raised (either
database execution, or the summarization invoke even after execution
succeeded), the exception is caught once and recorded in error, sql remains
present, and sql_result, response and chart are all absent - sql_result is
lost together with response because the source writes them in one
result.update whose dict literal evaluates the summarization invoke first. -/
theorem ask_db_failure_fields_amended {E D C : Type} (generate : Except E String)
    (validate : String → Bool) (execute : String → Except E D)
    (summarize : D → Except E String) (chart_of : D → Option C)
    (s : String) (e : E) (hg : generate = .ok s) (hv : validate s = true)
    (h : execute s = .error e ∨ ∃ df, execute s = .ok df ∧ summarize df = .error e) :
    ask_db generate validate execute summarize chart_of
      = { sql := some s, sql_result := none, response := none, chart := none,
          error := some e } := by
  subst hg
  rcases h with hex | ⟨df, hex, hsum⟩
  · simp [ask_db, hv, hex]
  · simp [ask_db, hv, hex, hsum]

/-- Witness for the amended C3 theorem at a concrete run where execution
succeeded and summarization raised. -/
theorem ask_db_failure_fields_amended_witness :
    (fun _ : String => true) "SELECT 1;" = true
    ∧ ask_db (E := String) (D := Nat) (C := Unit) (.ok "SELECT 1;")
        (fun _ => true) (fun _ => .ok 7) (fun _ => .error "late boom")
        (fun _ => none)
      = { sql := some "SELECT 1;", sql_result := none, response := none,
          chart := none, error := some "late boom" } :=
  ⟨rfl, ask_db_failure_fields_amended (.ok "SELECT 1;") (fun _ => true)
    (fun _ => .ok 7) (fun _ => .error "late boom") (fun _ => none)
    "SELECT 1;" "late boom" rfl rfl (Or.inr ⟨7, rfl, rfl⟩)⟩

/-- C7: when generation and extraction succeeded but validate_sql rejects the
candidate, the pipeline stops: the result holds exactly the extracted sql,
no other field is populated, the rejection is not recorded as an error, and
nothing further is executed - the result does not depend on the execute,
summarize or visualize collaborators at all. -/
theorem ask_db_validation_rejection {E D C : Type} (generate : Except E String)
    (validate : String → Bool) (execute : String → Except E D)
    (summarize : D → Except E String) (chart_of : D → Option C)
    (s : String) (hg : generate = .ok s) (hv : validate s = false) :
    ask_db generate validate execute summarize chart_of
      = { sql := some s, sql_result := none, response := none, chart := none,
          error := none }
    ∧ ∀ (execute2 : String → Except E D) (summarize2 : D → Except E String)
        (chart2 : D → Option C),
        ask_db generate validate execute2 summarize2 chart2
          = ask_db generate validate execute summarize chart_of := by
  subst hg
  constructor
  · simp [ask_db, hv]
  · intro execute2 summarize2 chart2
    simp [ask_db, hv]

/-- C9: with visualization enabled and a non-empty table, a single-column
table makes visualize return absent without ever reaching the
text-generation invoke; and any exception raised by the invoke or by the
execution of the generated chart code is caught inside visualize and yields
absent. The function is total, so no exception propagates to ask_db. -/
theorem visualize_guard_and_errors {E C : Type} (data : DataFrame)
    (viz_flag : Bool) (invoke_result : Except E String)
    (extract_code : String → String)
    (execute_code : String → Except E (Option C))
    (he : viz_flag = true) (hne : pdEmpty data = false) :
    (data.columns.length = 1 →
      visualize data viz_flag invoke_result extract_code execute_code
        = (none, false))
    ∧ (∀ e, invoke_result = .error e →
        (visualize data viz_flag invoke_result extract_code execute_code).1 = none)
    ∧ (∀ r e, invoke_result = .ok r →
        execute_code (extract_code r) = .error e →
        (visualize data viz_flag invoke_result extract_code execute_code).1 = none) := by
  subst he
  refine ⟨fun h1 => ?_, fun e hi => ?_, fun r e hi hx => ?_⟩
  · simp [visualize, hne, h1]
  · by_cases hc : data.columns.length = 1
    · simp [visualize, hne, hc]
    · simp [visualize, hne, hc, hi]
  · by_cases hc : data.columns.length = 1
    · simp [visualize, hne, hc]
    · simp [visualize, hne, hc, hi, hx]

/-- Witness for the C9 theorem: a concrete enabled, non-empty, single-column
table returns absent without reaching the invoke, and a concrete failing
invoke on a two-column table yields absent. -/
theorem visualize_guard_and_errors_witness :
    pdEmpty (DataFrame.mk ["only_col"] [["v"]]) = false
    ∧ visualize (E := String) (C := Unit) (DataFrame.mk ["only_col"] [["v"]])
        true (.ok "code") (fun s => s) (fun _ => .ok none) = (none, false)
    ∧ (visualize (E := String) (C := Unit)
        (DataFrame.mk ["c1", "c2"] [["v1", "v2"]]) true (.error "invoke boom")
        (fun s => s) (fun _ => .ok none)).1 = none :=
  ⟨rfl,
    (visualize_guard_and_errors (DataFrame.mk ["only_col"] [["v"]]) true
      (.ok "code") (fun s => s) (fun _ => .ok none) rfl rfl).1 rfl,
    (visualize_guard_and_errors (DataFrame.mk ["c1", "c2"] [["v1", "v2"]]) true
      (.error "invoke boom") (fun s => s) (fun _ => .ok none) rfl rfl).2.1
      "invoke boom" rfl⟩

/-- C8 counterexample: a bulk load of a NON-empty JSON array none of whose
objects carries both a Question and a SQLQuery key performs no insertion and
raises nothing, while the claim demands an exception for every file yielding
zero usable entries. -/
theorem index_bulk_no_valid_entries_cex :
    index none none none none true (some "examples.json")
        [BulkItem.mk none none, BulkItem.mk (some "q only") none]
      = ([], none) := by
  decide

/-- C8 amended: during a bulk load the source raises exactly when
load_json_to_dict yields no data (an unreadable file or an empty array); a
non-empty array in which no object has both keys silently indexes nothing;
and exactly one Example chunk is inserted per entry carrying both a Question
and a SQLQuery key, so N valid entries yield N insertions. -/
theorem index_bulk_amended (path : Option String) (file_data : List BulkItem)
    (hp : truthy path = true) :
    (file_data.isEmpty = true →
      index none none none none true path file_data = ([], some .noDataFound))
    ∧ (file_data.isEmpty = false →
      index none none none none true path file_data
        = (validBulkMutations file_data, none))
    ∧ (index none none none none true path file_data).2
        = (if file_data.isEmpty then some PyError.noDataFound else none) := by
  cases path with
  | none => simp [truthy] at hp
  | some p =>
    simp only [truthy] at hp
    refine ⟨fun hemp => ?_, fun hemp => ?_, ?_⟩
    · simp [index, truthy, hp, hemp]
    · simp [index, truthy, hp, hemp, validBulkMutations]
    · by_cases hemp : file_data.isEmpty
      · simp [index, truthy, hp, hemp]
      · simp [index, truthy, hp, hemp]

/-- Witness for the amended C8 theorem: two valid entries and one invalid one
yield exactly the two insertions and no exception. -/
theorem index_bulk_amended_witness :
    truthy (some "examples.json") = true
    ∧ index none none none none true (some "examples.json")
          [BulkItem.mk (some "q1") (some "s1"), BulkItem.mk none (some "s2"),
            BulkItem.mk (some "q3") (some "s3")]
        = (validBulkMutations
            [BulkItem.mk (some "q1") (some "s1"), BulkItem.mk none (some "s2"),
              BulkItem.mk (some "q3") (some "s3")], none) :=
  ⟨rfl, (index_bulk_amended (some "examples.json")
      [BulkItem.mk (some "q1") (some "s1"), BulkItem.mk none (some "s2"),
        BulkItem.mk (some "q3") (some "s3")] rfl).2.1 rfl⟩

/-- C10: calling index with a truthy question but no sql, no path and
bulk=False raises ValueError with no vector-store mutation performed; and
providing a path with bulk=False raises ValueError before the file is ever
loaded (the outcome is the same for every possible file content, with no
mutation). -/
theorem index_argument_errors (question sql ddl documentation : Option String)
    (file_data : List BulkItem) :
    (truthy question = true → truthy sql = false →
      index question sql ddl documentation false none file_data
        = ([], some .sqlNotProvided))
    ∧ (∀ p : String, truthy (some p) = true →
        index question sql ddl documentation false (some p) file_data
          = ([], some .bulkFalseError)) := by
  constructor
  · intro hq hs
    cases question with
    | none => simp [truthy] at hq
    | some q =>
      simp only [truthy] at hq
      cases sql with
      | none => simp [index, truthy, hq]
      | some s =>
        simp only [truthy] at hs
        simp [index, truthy, hq, hs]
  · intro p hp
    simp only [truthy] at hp
    simp [index, truthy, hp]

/-- Witness for the C10 theorem at concrete arguments. -/
theorem index_argument_errors_witness :
    index (some "a question") none none none false none []
        = ([], some .sqlNotProvided)
    ∧ index (some "a question") none none none false (some "file.json") []
        = ([], some .bulkFalseError) :=
  ⟨(index_argument_errors (some "a question") none none none []).1 rfl rfl,
    (index_argument_errors (some "a question") none none none []).2 "file.json" rfl⟩

/-- Witness for the C7 theorem at a concrete rejected candidate: the result
is exactly the sql field, and swapping the database, summarization and chart
collaborators for failing ones changes nothing. -/
theorem ask_db_validation_rejection_witness :
    (fun _ : String => false) "DROP TABLE t;" = false
    ∧ ask_db (E := String) (D := Nat) (C := Unit) (.ok "DROP TABLE t;")
        (fun _ => false) (fun _ => .ok 0) (fun _ => .ok "resp") (fun _ => none)
        = { sql := some "DROP TABLE t;", sql_result := none, response := none,
            chart := none, error := none }
    ∧ ask_db (E := String) (D := Nat) (C := Unit) (.ok "DROP TABLE t;")
        (fun _ => false) (fun _ => .error "db down") (fun _ => .error "llm down")
        (fun _ => some ())
        = ask_db (.ok "DROP TABLE t;") (fun _ => false) (fun _ => .ok 0)
            (fun _ => .ok "resp") (fun _ => none) :=
  ⟨rfl,
    (ask_db_validation_rejection (.ok "DROP TABLE t;") (fun _ => false)
      (fun _ => .ok 0) (fun _ => .ok "resp") (fun _ => none)
      "DROP TABLE t;" rfl rfl).1,
    (ask_db_validation_rejection (.ok "DROP TABLE t;") (fun _ => false)
      (fun _ => .ok 0) (fun _ => .ok "resp") (fun _ => none)
      "DROP TABLE t;" rfl rfl).2 (fun _ => .error "db down")
      (fun _ => .error "llm down") (fun _ => some ())⟩

end MindSQL
